import Mathlib

/-!
Verification of the IDP-Project visual OCR pipeline.

The development embeds the box-drawing, JSON-handling and display logic of
the two grounding variants (gemini_Testing.py and surya ocr/claude_testing.py)
together with the transport-payload construction of LLM.py, openAI_Testing.py
and claude_testing.py.  Machine reals produced by the source's true division
are modelled as rationals; Python dicts parsed from JSON are modelled as
association lists in parse order.
-/

namespace IDP

/-- JSON values as produced by Python's json.loads, restricted to integer
numbers (the payloads handled by this program carry only integers). -/
inductive Json where
  | null : Json
  | bool : Bool → Json
  | num : Int → Json
  | str : String → Json
  | arr : List Json → Json
  | obj : List (String × Json) → Json
deriving Repr

/-- Python dict.get(key): first binding of the key, none when the key is
absent or the value is not an object. -/
def jget : Json → String → Option Json
  | Json.obj fs, k => fs.lookup k
  | _, _ => none

/-- Whitespace accepted between JSON tokens by json.loads. -/
def isJsonWs (c : Char) : Bool :=
  c = ' ' || c = '\t' || c = '\n' || c = '\r'

/-- Drop leading JSON whitespace. -/
def skipWs : List Char → List Char
  | [] => []
  | c :: cs => if isJsonWs c then skipWs cs else c :: cs

/-- Parse the body of a JSON string literal after the opening quote,
handling the escape sequences that json.loads accepts (unicode escapes
other than the short forms are out of scope for these payloads). -/
def pStr : Nat → List Char → Option (String × List Char)
  | 0, _ => none
  | Nat.succ f, cs =>
    match cs with
    | [] => none
    | '"' :: rest => some ("", rest)
    | '\\' :: e :: rest =>
      match (match e with
             | '"' => some '"'
             | '\\' => some '\\'
             | '/' => some '/'
             | 'n' => some '\n'
             | 't' => some '\t'
             | 'r' => some '\r'
             | _ => none) with
      | some d =>
        match pStr f rest with
        | some (s, rem) => some (String.mk (d :: s.data), rem)
        | none => none
      | none => none
    | c :: rest =>
      match pStr f rest with
      | some (s, rem) => some (String.mk (c :: s.data), rem)
      | none => none

/-- Parse a run of decimal digits into a natural number. -/
def pDigits : List Char → Option (Nat × List Char)
  | cs =>
    let ds := cs.takeWhile Char.isDigit
    if ds = [] then none
    else some (ds.foldl (fun a c => a * 10 + (c.toNat - 48)) 0, cs.dropWhile Char.isDigit)

/-- Parse a JSON integer (optional minus sign then digits). -/
def pInt (cs : List Char) : Option (Int × List Char) :=
  match cs with
  | '-' :: rest =>
    match pDigits rest with
    | some (n, rem) => some (-(n : Int), rem)
    | none => none
  | _ =>
    match pDigits cs with
    | some (n, rem) => some ((n : Int), rem)
    | none => none

mutual

/-- Fuel-indexed recursive-descent JSON value parser modelling json.loads. -/
def pVal : Nat → List Char → Option (Json × List Char)
  | 0, _ => none
  | Nat.succ f, cs =>
    match skipWs cs with
    | '\x7b' :: rest =>
      match skipWs rest with
      | '\x7d' :: rem => some (Json.obj [], rem)
      | rest2 => match pMembers f rest2 with
                 | some (fs, rem) => some (Json.obj fs, rem)
                 | none => none
    | '[' :: rest =>
      match skipWs rest with
      | ']' :: rem => some (Json.arr [], rem)
      | rest2 => match pElems f rest2 with
                 | some (xs, rem) => some (Json.arr xs, rem)
                 | none => none
    | '"' :: rest =>
      match pStr (rest.length + 1) rest with
      | some (s, rem) => some (Json.str s, rem)
      | none => none
    | 't' :: 'r' :: 'u' :: 'e' :: rem => some (Json.bool true, rem)
    | 'f' :: 'a' :: 'l' :: 's' :: 'e' :: rem => some (Json.bool false, rem)
    | 'n' :: 'u' :: 'l' :: 'l' :: rem => some (Json.null, rem)
    | other =>
      match pInt other with
      | some (n, rem) => some (Json.num n, rem)
      | none => none

/-- Parse one or more comma-separated object members up to the closing brace. -/
def pMembers : Nat → List Char → Option (List (String × Json) × List Char)
  | 0, _ => none
  | Nat.succ f, cs =>
    match skipWs cs with
    | '"' :: rest =>
      match pStr (rest.length + 1) rest with
      | some (k, rem) =>
        match skipWs rem with
        | ':' :: rem2 =>
          match pVal f rem2 with
          | some (v, rem3) =>
            match skipWs rem3 with
            | ',' :: rem4 =>
              match pMembers f rem4 with
              | some (fs, rem5) => some ((k, v) :: fs, rem5)
              | none => none
            | '\x7d' :: rem4 => some ([(k, v)], rem4)
            | _ => none
          | none => none
        | _ => none
      | none => none
    | _ => none

/-- Parse one or more comma-separated array elements up to the closing bracket. -/
def pElems : Nat → List Char → Option (List Json × List Char)
  | 0, _ => none
  | Nat.succ f, cs =>
    match pVal f cs with
    | some (v, rem) =>
      match skipWs rem with
      | ',' :: rem2 =>
        match pElems f rem2 with
        | some (xs, rem3) => some (v :: xs, rem3)
        | none => none
      | ']' :: rem2 => some ([v], rem2)
      | _ => none
    | none => none

end

/-- json.loads: parse the whole text as a single JSON document; fails (None)
when the text is not valid JSON, including when any non-whitespace characters
precede or follow the document — json.loads performs no noise stripping. -/
def jsonLoads (s : String) : Option Json :=
  match pVal (2 * s.data.length + 4) s.data with
  | some (v, rem) => if skipWs rem = [] then some v else none
  | none => none

/-- A pixel rectangle as passed to draw.rectangle: coordinates x1, y1, x2, y2
(Python floats produced by true division, modelled as rationals). -/
structure PRect where
  x1 : ℚ
  y1 : ℚ
  x2 : ℚ
  y2 : ℚ
deriving Repr, DecidableEq

/-- Coordinate normalization of gemini_Testing.draw_boxes_on_image, lines
45-54: reorder each min/max pair, then scale 0-1000 values linearly to the
pixel dimensions. -/
def geminiNormalize (width height : ℚ) (ymin xmin ymax xmax : ℚ) : PRect :=
  let ymin2 := min ymin ymax
  let ymax2 := max ymin ymax
  let xmin2 := min xmin xmax
  let xmax2 := max xmin xmax
  { x1 := xmin2 / 1000 * width
    y1 := ymin2 / 1000 * height
    x2 := xmax2 / 1000 * width
    y2 := ymax2 / 1000 * height }

/-- Coordinate normalization of claude_testing.draw_boxes_on_image, lines
45-52: direct linear scaling with no reordering of the coordinate pairs. -/
def claudeNormalize (width height : ℚ) (ymin xmin ymax xmax : ℚ) : PRect :=
  { x1 := xmin / 1000 * width
    y1 := ymin / 1000 * height
    x2 := xmax / 1000 * width
    y2 := ymax / 1000 * height }

/-- Unpacking ymin, xmin, ymax, xmax = box for a 4-element list of numbers
(a non-numeric element would fail at the arithmetic in Python and is outside
the payloads this program handles). -/
def boxNums : List Json → Option (Int × Int × Int × Int)
  | [Json.num a, Json.num b, Json.num c, Json.num d] => some (a, b, c, d)
  | _ => none

/-- One loop iteration of gemini draw_boxes_on_image: box = item.get("box_2d");
the guard is Python's (box and len(box) == 4) — a missing key is None (falsy),
an empty list is falsy, and otherwise the length must be 4. -/
def geminiItemRect (width height : ℚ) (item : Json) : Option PRect :=
  match jget item "box_2d" with
  | some (Json.arr box) =>
    if !box.isEmpty && box.length == 4 then
      match boxNums box with
      | some (ymin, xmin, ymax, xmax) =>
        some (geminiNormalize width height (ymin : ℚ) (xmin : ℚ) (ymax : ℚ) (xmax : ℚ))
      | none => none
    else none
  | _ => none

/-- One loop iteration of claude draw_boxes_on_image: same guard, but the
normalization does not reorder the coordinate pairs. -/
def claudeItemRect (width height : ℚ) (item : Json) : Option PRect :=
  match jget item "box_2d" with
  | some (Json.arr box) =>
    if !box.isEmpty && box.length == 4 then
      match boxNums box with
      | some (ymin, xmin, ymax, xmax) =>
        some (claudeNormalize width height (ymin : ℚ) (xmin : ℚ) (ymax : ℚ) (xmax : ℚ))
      | none => none
    else none
  | _ => none

/-- json_response.get("layout", []): the layout entries iterated by both
draw_boxes_on_image variants; the empty sequence when the key is absent. -/
def layoutItems (data : Json) : List Json :=
  match jget data "layout" with
  | some (Json.arr l) => l
  | _ => []

/-- The rectangles gemini draw_boxes_on_image passes to draw.rectangle, in
layout order; entries whose guard fails contribute nothing. -/
def geminiDrawCalls (width height : ℚ) (data : Json) : List PRect :=
  (layoutItems data).filterMap (geminiItemRect width height)

/-- The rectangles claude draw_boxes_on_image passes to draw.rectangle. -/
def claudeDrawCalls (width height : ℚ) (data : Json) : List PRect :=
  (layoutItems data).filterMap (claudeItemRect width height)

/-- The clean display view, gemini_Testing line 131 (the identical expression
appears inline at claude_testing line 129): data.get("structured_data", \x7b\x7d). -/
def clean_display (data : Json) : Json :=
  (jget data "structured_data").getD (Json.obj [])

/-- A PIL image decoded for drawing: size plus a flat RGB pixel buffer. -/
structure PImage where
  width : Nat
  height : Nat
  pix : List Nat
deriving Repr, DecidableEq

/-- PIL Image.copy: a fresh image with the same size and pixel contents. -/
def PImage.copy (img : PImage) : PImage :=
  { width := img.width, height := img.height, pix := img.pix }

/-- The packed RGB value of the outline color "red". -/
def redColor : Nat := 0xFF0000

/-- Whether the pixel at flat index idx lies on the stroke-width-3 outline of
the rectangle (coordinates taken to the pixel grid by flooring). -/
def onOutline (w : Nat) (r : PRect) (idx : Nat) : Bool :=
  let px : Int := (idx % w : Nat)
  let py : Int := (idx / w : Nat)
  let a1 : Int := ⌊r.x1⌋
  let b1 : Int := ⌊r.y1⌋
  let a2 : Int := ⌊r.x2⌋
  let b2 : Int := ⌊r.y2⌋
  decide (a1 ≤ px ∧ px ≤ a2 ∧ b1 ≤ py ∧ py ≤ b2 ∧
    (px < a1 + 3 ∨ a2 - 3 < px ∨ py < b1 + 3 ∨ b2 - 3 < py))

/-- draw.rectangle([x1, y1, x2, y2], outline="red", width=3): paint the
outline pixels red and leave every other pixel unchanged. -/
def drawRect (img : PImage) (r : PRect) : PImage :=
  { img with pix := img.pix.mapIdx (fun i c => if onOutline img.width r i then redColor else c) }

/-- draw_boxes_on_image of gemini_Testing: draw every accepted layout box onto
the given image (ImageDraw works in place; modelled by threading the buffer)
and return that image. -/
def gemini_draw_boxes_on_image (img : PImage) (data : Json) : PImage :=
  (geminiDrawCalls (img.width : ℚ) (img.height : ℚ) data).foldl drawRect img

/-- draw_boxes_on_image of claude_testing. -/
def claude_draw_boxes_on_image (img : PImage) (data : Json) : PImage :=
  (claudeDrawCalls (img.width : ℚ) (img.height : ℚ) data).foldl drawRect img

/-- Lines 119-121 of gemini_Testing (identical shape in claude_testing):
annotated_image = image.copy(); final_image = draw_boxes_on_image(
annotated_image, data).  The in-place mutation performed by ImageDraw is
modelled by explicit state passing, so the step returns the binding of the
original image alongside the final image. -/
def geminiRenderStep (image : PImage) (data : Json) : PImage × PImage :=
  let annotated_image := image.copy
  let final_image := gemini_draw_boxes_on_image annotated_image data
  (image, final_image)

/-- The same two lines of claude_testing. -/
def claudeRenderStep (image : PImage) (data : Json) : PImage × PImage :=
  let annotated_image := image.copy
  let final_image := claude_draw_boxes_on_image annotated_image data
  (image, final_image)

/-- A hash of an image's pixel buffer (used to compare an image before and
after the pipeline runs). -/
def imageHash (img : PImage) : Nat :=
  img.pix.foldl (fun a c => a * 31 + c) (img.width * 1000003 + img.height)

/-- json.loads applied to response.text, gemini_Testing line 117. -/
def geminiParse (text : String) : Option Json := jsonLoads text

/-- json.loads applied to content, claude_testing line 114. -/
def claudeParse (content : String) : Option Json := jsonLoads content

/-- One user-visible output emitted by an error handler. -/
inductive UiOut where
  | error : String → UiOut
  | code : String → UiOut
deriving Repr, DecidableEq

/-- claude_testing lines 133-135: the except json.JSONDecodeError handler
shows a fixed banner and then the raw model content via st.code. -/
def claudeJsonErrorView (content : String) : List UiOut :=
  [UiOut.error "Groq returned invalid JSON. Try again.", UiOut.code content]

/-- gemini_Testing lines 141-142: the except Exception handler shows only the
stringified exception; no output carries the raw response text. -/
def geminiExceptView (message : String) : List UiOut :=
  [UiOut.error ("Error: " ++ message)]

/-- st.file_uploader accepted extensions, LLM.py line 40. -/
def llmUploadTypes : List String := ["jpg", "png", "jpeg", "webp"]

/-- st.file_uploader accepted extensions, openAI_Testing.py line 44. -/
def openaiUploadTypes : List String := ["png", "jpg", "jpeg"]

/-- st.file_uploader accepted extensions, gemini_Testing.py line 95. -/
def geminiUploadTypes : List String := ["jpg", "png", "jpeg", "webp"]

/-- st.file_uploader accepted extensions, claude_testing.py line 82. -/
def claudeUploadTypes : List String := ["jpg", "png", "jpeg", "webp"]

/-- The image_url data URL built in LLM.py line 115 from the base64 text. -/
def llmImageUrl (base64_image : String) : String :=
  "data:image/jpeg;base64," ++ base64_image

/-- The input_image data URL built in openAI_Testing.py line 68. -/
def openaiImageUrl (base64_image : String) : String :=
  "data:image/jpeg;base64," ++ base64_image

/-- The image_url data URL built in claude_testing.py line 105. -/
def claudeImageUrl (base64_image : String) : String :=
  "data:image/jpeg;base64," ++ base64_image

example : jsonLoads " \x7b\"a\": 1\x7d " = some (Json.obj [("a", Json.num 1)]) := rfl
example : jsonLoads "not json" = none := rfl
example : jsonLoads "note \x7b\"a\":1\x7d" = none := rfl
example : jsonLoads "[1, -2, true, null, \"x\"]"
    = some (Json.arr [Json.num 1, Json.num (-2), Json.bool true, Json.null, Json.str "x"]) :=
  rfl

/-- The raw end-to-end response text of the spec's end-to-end test case. -/
def rawC4 : String :=
  "\x7b\"structured_data\":\x7b\"invoice\":\"A1\"\x7d,\"layout\":[\x7b\"text\":\"Invoice\",\"box_2d\":[0,0,100,500]\x7d]\x7d"

/-- The parsed value of rawC4. -/
def dataC4 : Json :=
  Json.obj [("structured_data", Json.obj [("invoice", Json.str "A1")]),
            ("layout", Json.arr [Json.obj [("text", Json.str "Invoice"),
              ("box_2d", Json.arr [Json.num 0, Json.num 0, Json.num 100, Json.num 500])]])]

/-- A payload whose layout holds one invalid entry (no box_2d) and one valid
entry. -/
def rawC5 : String :=
  "\x7b\"layout\":[\x7b\"text\":\"X\"\x7d,\x7b\"text\":\"Y\",\"box_2d\":[0,0,10,10]\x7d]\x7d"

/-- The parsed value of rawC5. -/
def dataC5 : Json :=
  Json.obj [("layout", Json.arr [Json.obj [("text", Json.str "X")],
            Json.obj [("text", Json.str "Y"),
              ("box_2d", Json.arr [Json.num 0, Json.num 0, Json.num 10, Json.num 10])]])]

/-- Scaling a coordinate by width/1000 preserves order of the coordinates
(the scale factor is nonnegative because image dimensions are naturals). -/
theorem scale_mono (w : ℕ) (a b : ℚ) (h : a ≤ b) : a / 1000 * w ≤ b / 1000 * w := by
  gcongr

/-- C1 counterexample: the claude_testing variant performs no min/max
reordering, so the box [0, 200, 0, 100] (xmin and xmax swapped) on a
1000×1000 image yields a pixel rectangle with x2 < x1, refuting the claim
that both box-drawing variants return x1 ≤ x2 for any corner order. -/
theorem C1_claude_swapped_corners_cex :
    (claudeNormalize 1000 1000 0 200 0 100).x2 < (claudeNormalize 1000 1000 0 200 0 100).x1 := by
  simp [claudeNormalize]
  norm_num

/-- C1 (amended): the gemini_Testing normalization reorders each min/max pair
before scaling and therefore returns x1 ≤ x2 and y1 ≤ y2 for every box in any
corner order; the claude_testing normalization performs no reordering and
returns an ordered rectangle when the incoming pairs are already ordered. -/
theorem C1_normalize_ordering :
    (∀ (width height : ℕ) (ymin xmin ymax xmax : ℤ),
      (geminiNormalize width height (ymin : ℚ) (xmin : ℚ) (ymax : ℚ) (xmax : ℚ)).x1
          ≤ (geminiNormalize width height (ymin : ℚ) (xmin : ℚ) (ymax : ℚ) (xmax : ℚ)).x2 ∧
      (geminiNormalize width height (ymin : ℚ) (xmin : ℚ) (ymax : ℚ) (xmax : ℚ)).y1
          ≤ (geminiNormalize width height (ymin : ℚ) (xmin : ℚ) (ymax : ℚ) (xmax : ℚ)).y2)
  ∧ (∀ (width height : ℕ) (ymin xmin ymax xmax : ℤ), ymin ≤ ymax → xmin ≤ xmax →
      (claudeNormalize width height (ymin : ℚ) (xmin : ℚ) (ymax : ℚ) (xmax : ℚ)).x1
          ≤ (claudeNormalize width height (ymin : ℚ) (xmin : ℚ) (ymax : ℚ) (xmax : ℚ)).x2 ∧
      (claudeNormalize width height (ymin : ℚ) (xmin : ℚ) (ymax : ℚ) (xmax : ℚ)).y1
          ≤ (claudeNormalize width height (ymin : ℚ) (xmin : ℚ) (ymax : ℚ) (xmax : ℚ)).y2) := by
  constructor
  · intro width height ymin xmin ymax xmax
    constructor
    · exact scale_mono width _ _ min_le_max
    · exact scale_mono height _ _ min_le_max
  · intro width height ymin xmin ymax xmax hy hx
    constructor
    · exact scale_mono width _ _ (by exact_mod_cast hx)
    · exact scale_mono height _ _ (by exact_mod_cast hy)

/-- C1 witness: the amended ordering facts at concrete inputs — a swapped-
corner box through the gemini normalization and an ordered box through the
claude normalization. -/
theorem C1_normalize_ordering_witness :
    (geminiNormalize (1000 : ℕ) (2000 : ℕ) ((100 : ℤ) : ℚ) ((300 : ℤ) : ℚ) ((20 : ℤ) : ℚ)
        ((50 : ℤ) : ℚ)).x1
      ≤ (geminiNormalize (1000 : ℕ) (2000 : ℕ) ((100 : ℤ) : ℚ) ((300 : ℤ) : ℚ) ((20 : ℤ) : ℚ)
        ((50 : ℤ) : ℚ)).x2 ∧
    (claudeNormalize (1000 : ℕ) (1000 : ℕ) ((0 : ℤ) : ℚ) ((100 : ℤ) : ℚ) ((10 : ℤ) : ℚ)
        ((200 : ℤ) : ℚ)).x1
      ≤ (claudeNormalize (1000 : ℕ) (1000 : ℕ) ((0 : ℤ) : ℚ) ((100 : ℤ) : ℚ) ((10 : ℤ) : ℚ)
        ((200 : ℤ) : ℚ)).x2 :=
  ⟨(C1_normalize_ordering.1 1000 2000 100 300 20 50).1,
   (C1_normalize_ordering.2 1000 1000 0 100 10 200 (by decide) (by decide)).1⟩

/-- C2 counterexample: the payload with no structured_data key parses to the
object with the single field a, yet the clean display view is the empty
object, not the whole parsed value. -/
theorem C2_whole_value_not_used_cex :
    jsonLoads "\x7b\"a\":1\x7d" = some (Json.obj [("a", Json.num 1)]) ∧
    clean_display (Json.obj [("a", Json.num 1)]) = Json.obj [] ∧
    Json.obj [] ≠ Json.obj [("a", Json.num 1)] := by
  refine ⟨rfl, rfl, ?_⟩
  intro h
  injection h with h2
  exact List.noConfusion h2

/-- C2 (amended): for every successfully parsed payload with no
structured_data key, the clean display view is the empty object (the default
of dict.get), not the whole parsed value. -/
theorem C2_clean_display_default :
    ∀ (data : Json), jget data "structured_data" = none → clean_display data = Json.obj [] := by
  intro data h
  simp [clean_display, h]

/-- C2 witness: the default at the concrete parsed payload with one field. -/
theorem C2_clean_display_default_witness :
    clean_display (Json.obj [("a", Json.num 1)]) = Json.obj [] :=
  C2_clean_display_default (Json.obj [("a", Json.num 1)]) rfl

/-- C3 counterexample: text consisting of prose followed by valid JSON fails
to parse in both variants even though the same text with the leading noise
stripped parses — so no noise-stripping pass precedes the failure. -/
theorem C3_no_noise_stripping_cex :
    geminiParse "note \x7b\"a\":1\x7d" = none ∧
    claudeParse "note \x7b\"a\":1\x7d" = none ∧
    jsonLoads "\x7b\"a\":1\x7d" = some (Json.obj [("a", Json.num 1)]) :=
  ⟨rfl, rfl, rfl⟩

/-- C3 (amended): both variants hand the raw text to json.loads unmodified
(parsing fails exactly when the whole text is not valid JSON); on a JSON
decode error the claude_testing handler redisplays the original raw content
via st.code, while the gemini_Testing handler shows only the exception
message and no output of it carries the raw text. -/
theorem C3_parse_failure_raw_retention :
    (∀ raw : String, geminiParse raw = jsonLoads raw ∧ claudeParse raw = jsonLoads raw)
  ∧ (∀ content : String, UiOut.code content ∈ claudeJsonErrorView content)
  ∧ (∀ message raw : String, UiOut.code raw ∉ geminiExceptView message) := by
  refine ⟨fun raw => ⟨rfl, rfl⟩, fun content => ?_, fun message raw => ?_⟩
  · simp [claudeJsonErrorView]
  · simp [geminiExceptView]

/-- C4 counterexample: for the spec's end-to-end payload, a width-1000
height-2000 image yields the single rectangle (0, 0, 500, 200) and a
width-2000 height-1000 image yields (0, 0, 1000, 100); neither equals the
claimed span (0, 0) to (1000, 200). -/
theorem C4_end_to_end_cex :
    geminiDrawCalls 1000 2000 dataC4 = [PRect.mk 0 0 500 200] ∧
    geminiDrawCalls 2000 1000 dataC4 = [PRect.mk 0 0 1000 100] ∧
    PRect.mk (0 : ℚ) 0 500 200 ≠ PRect.mk 0 0 1000 200 ∧
    PRect.mk (0 : ℚ) 0 1000 100 ≠ PRect.mk 0 0 1000 200 := by
  refine ⟨?_, ?_, ?_, ?_⟩
  · have h1 : geminiDrawCalls 1000 2000 dataC4
        = [geminiNormalize 1000 2000 ((0 : Int) : ℚ) ((0 : Int) : ℚ) ((100 : Int) : ℚ)
            ((500 : Int) : ℚ)] := rfl
    rw [h1]
    simp [geminiNormalize]
    norm_num [min_def, max_def]
  · have h1 : geminiDrawCalls 2000 1000 dataC4
        = [geminiNormalize 2000 1000 ((0 : Int) : ℚ) ((0 : Int) : ℚ) ((100 : Int) : ℚ)
            ((500 : Int) : ℚ)] := rfl
    rw [h1]
    simp [geminiNormalize]
    norm_num [min_def, max_def]
  · simp [PRect.mk.injEq]
  · simp [PRect.mk.injEq]

/-- C4 (amended): for the raw end-to-end response and a width-1000
height-2000 image, the renderer draws exactly one rectangle, spanning pixel
(0, 0) to (500, 200), and the clean display view equals the invoice object. -/
theorem C4_end_to_end :
    jsonLoads rawC4 = some dataC4 ∧
    geminiDrawCalls 1000 2000 dataC4 = [PRect.mk 0 0 500 200] ∧
    (geminiDrawCalls 1000 2000 dataC4).length = 1 ∧
    clean_display dataC4 = Json.obj [("invoice", Json.str "A1")] := by
  refine ⟨rfl, ?_, rfl, rfl⟩
  have h1 : geminiDrawCalls 1000 2000 dataC4
      = [geminiNormalize 1000 2000 ((0 : Int) : ℚ) ((0 : Int) : ℚ) ((100 : Int) : ℚ)
          ((500 : Int) : ℚ)] := rfl
  rw [h1]
  simp [geminiNormalize]
  norm_num [min_def, max_def]

/-- C5: a layout entry whose box_2d is missing, or present with a length
other than 4, contributes no rectangle in either variant, and the concrete
payload with one valid and one invalid entry parses successfully and draws
exactly one rectangle. -/
theorem C5_invalid_entries_dropped :
    (∀ (w h : ℚ) (item : Json), jget item "box_2d" = none →
      geminiItemRect w h item = none ∧ claudeItemRect w h item = none)
  ∧ (∀ (w h : ℚ) (item : Json) (box : List Json),
      jget item "box_2d" = some (Json.arr box) → box.length ≠ 4 →
      geminiItemRect w h item = none ∧ claudeItemRect w h item = none)
  ∧ (jsonLoads rawC5 = some dataC5 ∧ (geminiDrawCalls 1000 1000 dataC5).length = 1 ∧
      (claudeDrawCalls 1000 1000 dataC5).length = 1) := by
  refine ⟨?_, ?_, rfl, rfl, rfl⟩
  · intro w h item hb
    constructor
    · simp [geminiItemRect, hb]
    · simp [claudeItemRect, hb]
  · intro w h item box hb h4
    constructor
    · simp [geminiItemRect, hb, h4]
    · simp [claudeItemRect, hb, h4]

/-- C5 witness: an entry with no box_2d and an entry with a 1-element box_2d
each yield no rectangle. -/
theorem C5_invalid_entries_dropped_witness :
    geminiItemRect 1000 1000 (Json.obj [("text", Json.str "X")]) = none ∧
    claudeItemRect 1000 1000 (Json.obj [("box_2d", Json.arr [Json.num 1])]) = none :=
  ⟨(C5_invalid_entries_dropped.1 1000 1000 (Json.obj [("text", Json.str "X")]) rfl).1,
   (C5_invalid_entries_dropped.2.1 1000 1000 (Json.obj [("box_2d", Json.arr [Json.num 1])])
      [Json.num 1] rfl (by decide)).2⟩

/-- C6: a parsed payload with no layout key yields the empty layout sequence,
zero draw calls, an unchanged image in both variants, and the clean display
view computed from structured_data exactly as always; concretely, a payload
carrying only structured_data parses, has no layout, and displays its data. -/
theorem C6_missing_layout_empty :
    (∀ (data : Json), jget data "layout" = none →
      layoutItems data = [] ∧
      (∀ w h : ℚ, geminiDrawCalls w h data = [] ∧ claudeDrawCalls w h data = []) ∧
      (∀ img : PImage, gemini_draw_boxes_on_image img data = img ∧
        claude_draw_boxes_on_image img data = img) ∧
      clean_display data = (jget data "structured_data").getD (Json.obj []))
  ∧ (jsonLoads "\x7b\"structured_data\":\x7b\"a\":1\x7d\x7d"
        = some (Json.obj [("structured_data", Json.obj [("a", Json.num 1)])]) ∧
     jget (Json.obj [("structured_data", Json.obj [("a", Json.num 1)])]) "layout" = none ∧
     clean_display (Json.obj [("structured_data", Json.obj [("a", Json.num 1)])])
        = Json.obj [("a", Json.num 1)]) := by
  refine ⟨?_, rfl, rfl, rfl⟩
  intro data hl
  have hli : layoutItems data = [] := by simp [layoutItems, hl]
  refine ⟨hli, fun w h => ⟨?_, ?_⟩, fun img => ⟨?_, ?_⟩, rfl⟩
  · simp [geminiDrawCalls, hli]
  · simp [claudeDrawCalls, hli]
  · simp [gemini_draw_boxes_on_image, geminiDrawCalls, hli]
  · simp [claude_draw_boxes_on_image, claudeDrawCalls, hli]

/-- C6 witness: the empty payload has no layout key and draws nothing. -/
theorem C6_missing_layout_empty_witness :
    layoutItems (Json.obj [("structured_data", Json.obj [])]) = [] :=
  ((C6_missing_layout_empty.1 (Json.obj [("structured_data", Json.obj [])]) rfl)).1

/-- C7: the render step of both variants operates on a defensive copy: the
original image binding is returned unchanged (its hash is equal before and
after) and the drawn rectangles land only on the copy. -/
theorem C7_original_untouched :
    ∀ (image : PImage) (data : Json),
      (geminiRenderStep image data).1 = image ∧
      imageHash (geminiRenderStep image data).1 = imageHash image ∧
      (geminiRenderStep image data).2 = gemini_draw_boxes_on_image image.copy data ∧
      (claudeRenderStep image data).1 = image ∧
      imageHash (claudeRenderStep image data).1 = imageHash image ∧
      (claudeRenderStep image data).2 = claude_draw_boxes_on_image image.copy data :=
  fun _ _ => ⟨rfl, rfl, rfl, rfl, rfl, rfl⟩

/-- C8: rendering is deterministic — drawing the same payload onto two
separately made copies of the same source image gives pixel-identical
results in both variants. -/
theorem C8_render_deterministic :
    ∀ (img c1 c2 : PImage) (data : Json), c1 = img.copy → c2 = img.copy →
      gemini_draw_boxes_on_image c1 data = gemini_draw_boxes_on_image c2 data ∧
      claude_draw_boxes_on_image c1 data = claude_draw_boxes_on_image c2 data := by
  intro img c1 c2 data h1 h2
  subst h1
  subst h2
  exact ⟨rfl, rfl⟩

/-- C8 witness: two copies of a concrete 2×2 image annotated with the empty
payload render identically. -/
theorem C8_render_deterministic_witness :
    gemini_draw_boxes_on_image (PImage.copy (PImage.mk 2 2 [0, 0, 0, 0])) (Json.obj [])
      = gemini_draw_boxes_on_image (PImage.copy (PImage.mk 2 2 [0, 0, 0, 0])) (Json.obj []) :=
  (C8_render_deterministic (PImage.mk 2 2 [0, 0, 0, 0]) (PImage.copy (PImage.mk 2 2 [0, 0, 0, 0]))
    (PImage.copy (PImage.mk 2 2 [0, 0, 0, 0])) (Json.obj []) rfl rfl).1

/-- C9: neither variant's per-item rectangle computation reads the text
field — two items with the same box_2d lookup yield the same result — and an
item with a valid box_2d but no text key, or a non-string text, still yields
its rectangle. -/
theorem C9_text_ignored :
    (∀ (w h : ℚ) (i1 i2 : Json), jget i1 "box_2d" = jget i2 "box_2d" →
      geminiItemRect w h i1 = geminiItemRect w h i2 ∧
      claudeItemRect w h i1 = claudeItemRect w h i2)
  ∧ geminiItemRect 1000 2000
      (Json.obj [("box_2d", Json.arr [Json.num 0, Json.num 0, Json.num 100, Json.num 500])])
      = some (PRect.mk 0 0 500 200)
  ∧ claudeItemRect 1000 2000
      (Json.obj [("text", Json.num 7),
        ("box_2d", Json.arr [Json.num 0, Json.num 0, Json.num 100, Json.num 500])])
      = some (PRect.mk 0 0 500 200) := by
  refine ⟨?_, ?_, ?_⟩
  · intro w h i1 i2 hb
    constructor
    · simp only [geminiItemRect]
      rw [hb]
    · simp only [claudeItemRect]
      rw [hb]
  · have h1 : geminiItemRect 1000 2000
        (Json.obj [("box_2d", Json.arr [Json.num 0, Json.num 0, Json.num 100, Json.num 500])])
        = some (geminiNormalize 1000 2000 ((0 : Int) : ℚ) ((0 : Int) : ℚ) ((100 : Int) : ℚ)
            ((500 : Int) : ℚ)) := rfl
    rw [h1]
    simp [geminiNormalize]
    norm_num [min_def, max_def]
  · have h1 : claudeItemRect 1000 2000
        (Json.obj [("text", Json.num 7),
          ("box_2d", Json.arr [Json.num 0, Json.num 0, Json.num 100, Json.num 500])])
        = some (claudeNormalize 1000 2000 ((0 : Int) : ℚ) ((0 : Int) : ℚ) ((100 : Int) : ℚ)
            ((500 : Int) : ℚ)) := rfl
    rw [h1]
    simp [claudeNormalize]
    norm_num

/-- C9 witness: two items differing only in their text value (a string
versus a number) produce the same rectangle. -/
theorem C9_text_ignored_witness :
    geminiItemRect 1000 1000
        (Json.obj [("text", Json.str "A"),
          ("box_2d", Json.arr [Json.num 1, Json.num 2, Json.num 3, Json.num 4])])
      = geminiItemRect 1000 1000
        (Json.obj [("text", Json.num 7),
          ("box_2d", Json.arr [Json.num 1, Json.num 2, Json.num 3, Json.num 4])]) :=
  (C9_text_ignored.1 1000 1000
    (Json.obj [("text", Json.str "A"),
      ("box_2d", Json.arr [Json.num 1, Json.num 2, Json.num 3, Json.num 4])])
    (Json.obj [("text", Json.num 7),
      ("box_2d", Json.arr [Json.num 1, Json.num 2, Json.num 3, Json.num 4])]) rfl).1

/-- C10 counterexample: webp is not among the upload types accepted by
openAI_Testing.py, although LLM.py accepts it — so the claim that png, jpg,
jpeg and webp are all accepted does not hold of every uploader. -/
theorem C10_webp_not_universal_cex :
    "webp" ∉ openaiUploadTypes ∧ "webp" ∈ llmUploadTypes := by
  decide

/-- C10 (amended): every transport payload embeds the encoded image in a
data URL beginning data:image/jpeg;base64 regardless of the uploaded
format; png, jpg and jpeg are accepted by all three uploaders, while webp is
accepted by LLM.py and claude_testing.py but not by openAI_Testing.py. -/
theorem C10_jpeg_media_type :
    (∀ b : String, ∃ rest, llmImageUrl b = "data:image/jpeg;base64," ++ rest)
  ∧ (∀ b : String, ∃ rest, openaiImageUrl b = "data:image/jpeg;base64," ++ rest)
  ∧ (∀ b : String, ∃ rest, claudeImageUrl b = "data:image/jpeg;base64," ++ rest)
  ∧ ("png" ∈ llmUploadTypes ∧ "jpg" ∈ llmUploadTypes ∧ "jpeg" ∈ llmUploadTypes)
  ∧ ("png" ∈ openaiUploadTypes ∧ "jpg" ∈ openaiUploadTypes ∧ "jpeg" ∈ openaiUploadTypes)
  ∧ ("png" ∈ claudeUploadTypes ∧ "jpg" ∈ claudeUploadTypes ∧ "jpeg" ∈ claudeUploadTypes)
  ∧ "webp" ∈ llmUploadTypes ∧ "webp" ∈ claudeUploadTypes ∧ "webp" ∉ openaiUploadTypes := by
  refine ⟨fun b => ⟨b, rfl⟩, fun b => ⟨b, rfl⟩, fun b => ⟨b, rfl⟩, ?_, ?_, ?_, ?_, ?_, ?_⟩ <;>
    decide

end IDP
